import Mathlib

/-!
Verification of the team-builder graph model of autogen-studio
(frontend/src/components/views/shared/team/builder.tsx/components/nodes.tsx).

The file embeds, as executable Lean definitions, the node components
(their connection handles and drop zones), the drop-zone validator, the
edge renderer registry, and the custom edge renderer from the source.
Operations that live in the builder store rather than in the reviewed
source (edge creation, attach, node creation) are modelled from the
specification and marked as such in their doc comments.
-/

namespace AutogenStudio

/-- The closed set of component kinds (ComponentTypes in the datamodel). -/
inductive ComponentType where
  | team
  | agent
  | model
  | tool
  | termination
deriving DecidableEq

/-- The string a ComponentType value is at runtime (the TS enum is a string union). -/
def ComponentType.toStr : ComponentType → String
  | ComponentType.team => "team"
  | ComponentType.agent => "agent"
  | ComponentType.model => "model"
  | ComponentType.tool => "tool"
  | ComponentType.termination => "termination"

/-- ModelConfig: model_type, model identifier, optional base_url. -/
structure ModelConfig where
  model_type : String
  model : String
  base_url : Option String
deriving DecidableEq

/-- ToolConfig: tool_type, name, description, content. -/
structure ToolConfig where
  tool_type : String
  name : String
  description : String
  content : String
deriving DecidableEq

/-- TerminationConfig: termination_type and optional max_messages. -/
structure TerminationConfig where
  termination_type : String
  max_messages : Option Nat
deriving DecidableEq

/-- AgentConfig: agent_type, name, optional model reference, optional
system_message, optional tool list (the source reads config.tools with
optional chaining). -/
structure AgentConfig where
  agent_type : String
  name : String
  model_client : Option ModelConfig
  system_message : Option String
  tools : Option (List ToolConfig)
deriving DecidableEq

/-- TeamConfig: team_type, optional model reference, optional participant
list, optional selector_prompt, optional termination reference. -/
structure TeamConfig where
  team_type : String
  model_client : Option ModelConfig
  participants : Option (List AgentConfig)
  selector_prompt : Option String
  termination_condition : Option TerminationConfig
deriving DecidableEq

/-- The tagged union of per-kind configs. -/
inductive ComponentConfig where
  | team (c : TeamConfig)
  | agent (c : AgentConfig)
  | model (c : ModelConfig)
  | tool (c : ToolConfig)
  | termination (c : TerminationConfig)
deriving DecidableEq

/-- The variant tag of a ComponentConfig. -/
def configKind : ComponentConfig → ComponentType
  | ComponentConfig.team _ => ComponentType.team
  | ComponentConfig.agent _ => ComponentType.agent
  | ComponentConfig.model _ => ComponentType.model
  | ComponentConfig.tool _ => ComponentType.tool
  | ComponentConfig.termination _ => ComponentType.termination

/-- Handle role: the source renders each Handle with type "source" or "target". -/
inductive HandleRole where
  | source
  | target
deriving DecidableEq

/-- Handle position on the node box (Position.Left or Position.Right in the source). -/
inductive HandlePos where
  | left
  | right
deriving DecidableEq

/-- A connection handle as rendered by a node component. -/
structure Handle where
  role : HandleRole
  pos : HandlePos
  hid : String
deriving DecidableEq

/-- Handles rendered by TeamNode: a target handle on the left, with id
props.id ++ "-input-handle", rendered only when config.model_client or
config.termination_condition is truthy, plus an unconditional source
handle on the right with id props.id ++ "-output-handle". -/
def teamNodeHandles (nodeId : String) (config : TeamConfig) : List Handle :=
  (if config.model_client.isSome || config.termination_condition.isSome then
    [Handle.mk HandleRole.target HandlePos.left (nodeId ++ "-input-handle")]
  else []) ++
  [Handle.mk HandleRole.source HandlePos.right (nodeId ++ "-output-handle")]

/-- Handles rendered by AgentNode: the source renders two handles, the
left one with type "target" and id props.id ++ "-input-handle", and the
right one ALSO with type "target" and id props.id ++ "-output-handle".
The config does not influence the handle set. -/
def agentNodeHandles (nodeId : String) (_config : AgentConfig) : List Handle :=
  [Handle.mk HandleRole.target HandlePos.left (nodeId ++ "-input-handle"),
   Handle.mk HandleRole.target HandlePos.right (nodeId ++ "-output-handle")]

/-- Handles rendered by ModelNode: a single source handle on the right. -/
def modelNodeHandles (nodeId : String) (_config : ModelConfig) : List Handle :=
  [Handle.mk HandleRole.source HandlePos.right (nodeId ++ "-output-handle")]

/-- Handles rendered by ToolNode: a single source handle on the right. -/
def toolNodeHandles (nodeId : String) (_config : ToolConfig) : List Handle :=
  [Handle.mk HandleRole.source HandlePos.right (nodeId ++ "-output-handle")]

/-- Handles rendered by TerminationNode: a single source handle on the right. -/
def terminationNodeHandles (nodeId : String) (_config : TerminationConfig) : List Handle :=
  [Handle.mk HandleRole.source HandlePos.right (nodeId ++ "-output-handle")]

/-- The innermost drag payload: the source reads active.data.current.current.type,
so the payload carries an optional type field. -/
structure DragItem where
  type : Option ComponentType
deriving DecidableEq

/-- The doubly nested current object: active.data.current.current. -/
structure DragDataCurrent where
  current : Option DragItem
deriving DecidableEq

/-- The data member of the active drag item: active.data.current. -/
structure DragData where
  current : Option DragDataCurrent
deriving DecidableEq

/-- The active drag item tracked by the drag session (useDroppable active). -/
structure ActiveItem where
  data : Option DragData
deriving DecidableEq

/-- The dragged kind resolved by the optional chain
active?.data?.current?.current?.type. -/
def activeDraggedType (active : Option ActiveItem) : Option ComponentType :=
  (((active.bind ActiveItem.data).bind DragData.current).bind
    DragDataCurrent.current).bind DragItem.type

/-- The isValidDrop legality verdict of DroppableZone, as the truthiness of
isOver AND active?.data?.current?.current?.type AND
accepts.includes(active.data.current.current.type): true exactly when the
pointer is over the zone, the optional chain resolves to a component type,
and that type is in the accepts list. -/
def isValidDrop (isOver : Bool) (accepts : List ComponentType)
    (active : Option ActiveItem) : Bool :=
  isOver &&
    match activeDraggedType active with
    | some t => accepts.contains t
    | none => false

/-- A JavaScript runtime value, for modelling the evaluation of the
isValidDrop expression including possible TypeErrors. -/
inductive JSVal where
  | undef
  | null
  | jsBool (b : Bool)
  | jsStr (s : String)
  | obj (fields : List (String × JSVal))

/-- Plain property access a.f: a TypeError on undefined and null, the field
value (or undefined when absent) on an object, undefined on other primitives. -/
def getField : JSVal → String → Except String JSVal
  | JSVal.undef, f => Except.error ("TypeError: cannot read " ++ f ++ " of undefined")
  | JSVal.null, f => Except.error ("TypeError: cannot read " ++ f ++ " of null")
  | JSVal.obj fields, f => Except.ok ((fields.lookup f).getD JSVal.undef)
  | _, _ => Except.ok JSVal.undef

/-- Optional-chained access a?.f: undefined when a is nullish, otherwise
plain access. -/
def optChain (v : JSVal) (f : String) : Except String JSVal :=
  match v with
  | JSVal.undef => Except.ok JSVal.undef
  | JSVal.null => Except.ok JSVal.undef
  | _ => getField v f

/-- JavaScript truthiness. -/
def truthy : JSVal → Bool
  | JSVal.undef => false
  | JSVal.null => false
  | JSVal.jsBool b => b
  | JSVal.jsStr s => decide (s ≠ "")
  | JSVal.obj _ => true

/-- Array.prototype.includes on a string array. -/
def includesJS (accepts : List String) : JSVal → Bool
  | JSVal.jsStr s => accepts.contains s
  | _ => false

/-- Evaluation of the isValidDrop expression with JavaScript semantics:
isOver AND active?.data?.current?.current?.type AND
accepts.includes(active.data.current.current.type). The first two conjuncts
short-circuit on falsy values; the third conjunct re-reads the chain WITHOUT
optional chaining, so it is safe only because the second conjunct guarantees
every intermediate value is non-nullish. -/
def evalIsValidDrop (isOver : JSVal) (accepts : List String)
    (active : JSVal) : Except String JSVal := do
  if truthy isOver = false then return isOver
  let d ← optChain active "data"
  let c1 ← optChain d "current"
  let c2 ← optChain c1 "current"
  let t ← optChain c2 "type"
  if truthy t = false then return t
  let d2 ← getField active "data"
  let c12 ← getField d2 "current"
  let c22 ← getField c12 "current"
  let t2 ← getField c22 "type"
  return JSVal.jsBool (includesJS accepts t2)

/-- The JSVal a DragItem is at runtime. -/
def dragItemToJS (it : DragItem) : JSVal :=
  JSVal.obj (match it.type with
    | some t => [("type", JSVal.jsStr t.toStr)]
    | none => [])

/-- The JSVal a DragDataCurrent is at runtime. -/
def dragDataCurrentToJS (c : DragDataCurrent) : JSVal :=
  JSVal.obj (match c.current with
    | some it => [("current", dragItemToJS it)]
    | none => [])

/-- The JSVal a DragData is at runtime. -/
def dragDataToJS (d : DragData) : JSVal :=
  JSVal.obj (match d.current with
    | some c => [("current", dragDataCurrentToJS c)]
    | none => [])

/-- The JSVal the active drag reference is at runtime: null when no drag is
active, otherwise an object whose data field may itself be absent. -/
def activeToJS : Option ActiveItem → JSVal
  | none => JSVal.null
  | some a => JSVal.obj (match a.data with
    | some d => [("data", dragDataToJS d)]
    | none => [])

/-- The edge renderer component: the source registers CustomEdge for every
connection type. -/
inductive EdgeRenderer where
  | customEdge
deriving DecidableEq

/-- The edgeTypes registry from the source: the three connection types, each
mapped to CustomEdge. -/
def edgeTypes : List (String × EdgeRenderer) :=
  [("model-connection", EdgeRenderer.customEdge),
   ("tool-connection", EdgeRenderer.customEdge),
   ("participant-connection", EdgeRenderer.customEdge)]

/-- EDGE_STYLES from the source: stroke colors per connection type. -/
def EDGE_STYLES : List (String × String) :=
  [("model-connection", "rgb(59, 130, 246)"),
   ("tool-connection", "rgb(34, 197, 94)"),
   ("participant-connection", "rgb(168, 85, 247)")]

/-- The data payload of an edge as read by CustomEdge: an optional type field. -/
structure EdgeData where
  type : Option String
deriving DecidableEq

/-- The edge type CustomEdge resolves: (data?.type as EdgeType) OR
"model-connection". The JavaScript OR also replaces an empty (falsy) string
by the fallback. -/
def edgeTypeOf (data : Option EdgeData) : String :=
  match data.bind EdgeData.type with
  | some t => if t = "" then "model-connection" else t
  | none => "model-connection"

/-- The stroke CustomEdge draws with: the EDGE_STYLES entry of the resolved
edge type. -/
def customEdgeStroke (data : Option EdgeData) : Option String :=
  EDGE_STYLES.lookup (edgeTypeOf data)

/-- Modelled from the spec: the fixed derivation table of connection types
from endpoint kind pairs (section 3 Edge invariant). Edge creation lives in
the builder store, which is absent from the reviewed source; the spec states
that model to team and model to agent give model-connection, tool to agent
gives tool-connection, agent to team gives participant-connection, and no
other kind pair may be connected. -/
def deriveConnectionType : ComponentType → ComponentType → Option String
  | ComponentType.model, ComponentType.team => some "model-connection"
  | ComponentType.model, ComponentType.agent => some "model-connection"
  | ComponentType.tool, ComponentType.agent => some "tool-connection"
  | ComponentType.agent, ComponentType.team => some "participant-connection"
  | _, _ => none

/-- An edge between two node kinds carrying a connection type. -/
structure Edge where
  sourceKind : ComponentType
  targetKind : ComponentType
  connType : String
deriving DecidableEq

/-- Modelled from the spec: an edge is valid exactly when its connection type
is the one derived from its endpoint kind pair (section 3 Edge invariant and
section 4.4 step 4: the connection type is never supplied by the caller). -/
def Edge.valid (e : Edge) : Prop :=
  deriveConnectionType e.sourceKind e.targetKind = some e.connType

instance (e : Edge) : Decidable e.valid := by
  unfold Edge.valid
  infer_instance

/-- A graph node: id, kind tag, and config payload. -/
structure GNode where
  id : String
  kind : ComponentType
  config : ComponentConfig
deriving DecidableEq

/-- A graph edge between two node ids. -/
structure GEdge where
  eid : String
  sourceId : String
  targetId : String
  connType : String
deriving DecidableEq

/-- A graph: nodes and edges. -/
structure Graph where
  nodes : List GNode
  edges : List GEdge
deriving DecidableEq

/-- Node lookup by id. -/
def findNode (g : Graph) (nid : String) : Option GNode :=
  g.nodes.find? (fun n => n.id == nid)

/-- Modelled from the spec: the model slot on Team and Agent enforces single
occupancy; it is occupied when the config already holds a model reference
(section 4.4 step 2). -/
def modelSlotOccupied (n : GNode) : Bool :=
  match n.config with
  | ComponentConfig.team c => c.model_client.isSome
  | ComponentConfig.agent c => c.model_client.isSome
  | _ => false

/-- Modelled from the spec: errors of the graph operations (section 7). -/
inductive AttachError where
  | KindMismatch
  | IncompatibleKinds
  | SlotOccupied
  | UnknownNode
deriving DecidableEq

/-- Modelled from the spec: proposeConnection (section 4.4). Absent endpoints
give UnknownNode; a kind pair outside the derivation table gives
IncompatibleKinds; a single-occupancy slot already attached gives
SlotOccupied; otherwise the edge is created with the derived connection
type. -/
def proposeConnection (g : Graph) (sourceId targetId eid : String) :
    Except AttachError GEdge :=
  match findNode g sourceId, findNode g targetId with
  | some s, some t =>
    match deriveConnectionType s.kind t.kind with
    | none => Except.error AttachError.IncompatibleKinds
    | some ct =>
      if s.kind == ComponentType.model && modelSlotOccupied t then
        Except.error AttachError.SlotOccupied
      else
        Except.ok (GEdge.mk eid sourceId targetId ct)
  | _, _ => Except.error AttachError.UnknownNode

/-- Modelled from the spec: the config update performed by attach (section
4.5): the parent config gains the reference to the attached child. -/
def applyAttachment (parent child : GNode) : GNode :=
  match parent.config, child.config with
  | ComponentConfig.team tc, ComponentConfig.model mc =>
    GNode.mk parent.id parent.kind
      (ComponentConfig.team { tc with model_client := some mc })
  | ComponentConfig.team tc, ComponentConfig.agent ac =>
    GNode.mk parent.id parent.kind
      (ComponentConfig.team
        { tc with participants := some ((tc.participants.getD []) ++ [ac]) })
  | ComponentConfig.agent ac, ComponentConfig.model mc =>
    GNode.mk parent.id parent.kind
      (ComponentConfig.agent { ac with model_client := some mc })
  | ComponentConfig.agent ac, ComponentConfig.tool tl =>
    GNode.mk parent.id parent.kind
      (ComponentConfig.agent { ac with tools := some ((ac.tools.getD []) ++ [tl]) })
  | _, _ => parent

/-- Modelled from the spec: attach (section 4.5) wraps proposeConnection and
on success adds the edge and updates the parent config; on failure it
returns the error and the graph is untouched (attach is pure, so the caller
keeps the original graph). -/
def attach (g : Graph) (sourceId targetId eid : String) :
    Except AttachError Graph :=
  match proposeConnection g sourceId targetId eid with
  | Except.error err => Except.error err
  | Except.ok e =>
    match findNode g sourceId with
    | some s =>
      Except.ok (Graph.mk
        (g.nodes.map (fun n => if n.id == targetId then applyAttachment n s else n))
        (g.edges ++ [e]))
    | none => Except.error AttachError.UnknownNode

/-- Modelled from the spec: create(kind, config) (section 4.2) fails with
KindMismatch when the config variant does not match the kind. Node creation
lives in the builder store, absent from the reviewed source. -/
def createNode (nid : String) (kind : ComponentType) (config : ComponentConfig) :
    Except AttachError GNode :=
  if configKind config = kind then Except.ok (GNode.mk nid kind config)
  else Except.error AttachError.KindMismatch

/-- The node components registered in the nodeTypes map. -/
inductive NodeComponent where
  | teamNode
  | agentNode
  | modelNode
  | toolNode
  | terminationNode
deriving DecidableEq

/-- The nodeTypes registry from the source: kind keyed dispatch to the node
components. -/
def nodeTypes : List (ComponentType × NodeComponent) :=
  [(ComponentType.team, NodeComponent.teamNode),
   (ComponentType.agent, NodeComponent.agentNode),
   (ComponentType.model, NodeComponent.modelNode),
   (ComponentType.tool, NodeComponent.toolNode),
   (ComponentType.termination, NodeComponent.terminationNode)]

/-- The component each kind is meant to be interpreted by. -/
def componentOfKind : ComponentType → NodeComponent
  | ComponentType.team => NodeComponent.teamNode
  | ComponentType.agent => NodeComponent.agentNode
  | ComponentType.model => NodeComponent.modelNode
  | ComponentType.tool => NodeComponent.toolNode
  | ComponentType.termination => NodeComponent.terminationNode

/-- The runtime view TeamNode obtains from props.data.config as TeamConfig:
every field it reads, with JavaScript field-access semantics. All fields are
optional because the cast is unchecked and a field of the same name flows
through from any variant while other fields read as undefined. -/
structure TeamConfigView where
  team_type : Option String
  model_client : Option ModelConfig
  participants : Option (List AgentConfig)
  selector_prompt : Option String
  termination_condition : Option TerminationConfig
deriving DecidableEq

/-- The TypeScript cast config as TeamConfig followed by the field reads
TeamNode performs: a runtime no-op, so on a team-tagged config it projects
the fields, and on any other variant it reads the like-named fields of that
variant (AgentConfig also has model_client) and undefined for the rest. No
tag check occurs. -/
def asTeamConfig : ComponentConfig → TeamConfigView
  | ComponentConfig.team c =>
    TeamConfigView.mk (some c.team_type) c.model_client c.participants
      c.selector_prompt c.termination_condition
  | ComponentConfig.agent c =>
    TeamConfigView.mk none c.model_client none none none
  | ComponentConfig.model _ => TeamConfigView.mk none none none none none
  | ComponentConfig.tool _ => TeamConfigView.mk none none none none none
  | ComponentConfig.termination _ => TeamConfigView.mk none none none none none

/-- The runtime view AgentNode obtains from props.data.config as AgentConfig:
the fields it reads (agent_type, model_client, system_message, tools), with
JavaScript field-access semantics under the unchecked cast. -/
structure AgentConfigView where
  agent_type : Option String
  model_client : Option ModelConfig
  system_message : Option String
  tools : Option (List ToolConfig)
deriving DecidableEq

/-- The TypeScript cast config as AgentConfig followed by the field reads
AgentNode performs: a runtime no-op, so on an agent-tagged config it
projects the fields, on a team-tagged config the like-named model_client
flows through, and every other field of every other variant reads as
undefined. No tag check occurs. -/
def asAgentConfig : ComponentConfig → AgentConfigView
  | ComponentConfig.agent c =>
    AgentConfigView.mk (some c.agent_type) c.model_client c.system_message c.tools
  | ComponentConfig.team c => AgentConfigView.mk none c.model_client none none
  | ComponentConfig.model _ => AgentConfigView.mk none none none none
  | ComponentConfig.tool _ => AgentConfigView.mk none none none none
  | ComponentConfig.termination _ => AgentConfigView.mk none none none none

/-- The runtime view ModelNode obtains from props.data.config as ModelConfig:
the fields it reads (model_type, model, base_url). -/
structure ModelConfigView where
  model_type : Option String
  model : Option String
  base_url : Option String
deriving DecidableEq

/-- The TypeScript cast config as ModelConfig followed by the field reads
ModelNode performs: no other variant carries a like-named field, so every
mismatched variant reads entirely as undefined. No tag check occurs. -/
def asModelConfig : ComponentConfig → ModelConfigView
  | ComponentConfig.model c =>
    ModelConfigView.mk (some c.model_type) (some c.model) c.base_url
  | _ => ModelConfigView.mk none none none

/-- The runtime view ToolNode obtains from props.data.config as ToolConfig:
the fields it reads (tool_type, description, content). -/
structure ToolConfigView where
  tool_type : Option String
  description : Option String
  content : Option String
deriving DecidableEq

/-- The TypeScript cast config as ToolConfig followed by the field reads
ToolNode performs: no other variant carries a like-named field, so every
mismatched variant reads entirely as undefined. No tag check occurs. -/
def asToolConfig : ComponentConfig → ToolConfigView
  | ComponentConfig.tool c =>
    ToolConfigView.mk (some c.tool_type) (some c.description) (some c.content)
  | _ => ToolConfigView.mk none none none

/-- The runtime view TerminationNode obtains from props.data.config as
TerminationConfig: the fields it reads (termination_type, max_messages). -/
structure TerminationConfigView where
  termination_type : Option String
  max_messages : Option Nat
deriving DecidableEq

/-- The TypeScript cast config as TerminationConfig followed by the field
reads TerminationNode performs: no other variant carries a like-named field,
so every mismatched variant reads entirely as undefined. No tag check
occurs. -/
def asTerminationConfig : ComponentConfig → TerminationConfigView
  | ComponentConfig.termination c =>
    TerminationConfigView.mk (some c.termination_type) c.max_messages
  | _ => TerminationConfigView.mk none none

/-- The tag equals kind invariant over every node of a graph, as a boolean. -/
def graphTagsMatch (g : Graph) : Bool :=
  g.nodes.all (fun n => configKind n.config == n.kind)

/-- Example team config with a model already attached. -/
def exTeamConfig : TeamConfig :=
  TeamConfig.mk "roundrobin" (some (ModelConfig.mk "openai" "gpt-4" none))
    none none none

/-- Example team node holding exTeamConfig. -/
def exTeamNode : GNode :=
  GNode.mk "t1" ComponentType.team (ComponentConfig.team exTeamConfig)

/-- Example model node. -/
def exModelNode : GNode :=
  GNode.mk "m2" ComponentType.model
    (ComponentConfig.model (ModelConfig.mk "openai" "gpt-4o" none))

/-- Example graph: a team with an attached model, plus a second model node. -/
def exGraph : Graph := Graph.mk [exTeamNode, exModelNode] []

/-- Example team config with nothing attached. -/
def exEmptyTeamConfig : TeamConfig := TeamConfig.mk "selector" none none none none

/-- Example team node holding exEmptyTeamConfig. -/
def exEmptyTeamNode : GNode :=
  GNode.mk "t1" ComponentType.team (ComponentConfig.team exEmptyTeamConfig)

/-- Example graph with an empty team and a model node. -/
def exGraph2 : Graph := Graph.mk [exEmptyTeamNode, exModelNode] []

/-- The graph attach produces from exGraph2 when the model node is attached
to the team: the team config gains the model reference and a
model-connection edge is added. -/
def exGraph2Attached : Graph :=
  Graph.mk
    [GNode.mk "t1" ComponentType.team (ComponentConfig.team
       (TeamConfig.mk "selector" (some (ModelConfig.mk "openai" "gpt-4o" none))
         none none none)),
     exModelNode]
    [GEdge.mk "e1" "m2" "t1" "model-connection"]

/-- Claim C1: the claim states that every Agent node exposes exactly one
input handle of role target and exactly one output handle of role source.
The source instead renders BOTH agent handles with type "target": the handle
with id props.id ++ "-output-handle" is a target, and the agent has no
source handle at all. This theorem evaluates the embedded handle set of
AgentNode: two target handles, zero source handles. -/
theorem C1_agent_output_handle_role (nodeId : String) (config : AgentConfig) :
    agentNodeHandles nodeId config =
      [Handle.mk HandleRole.target HandlePos.left (nodeId ++ "-input-handle"),
       Handle.mk HandleRole.target HandlePos.right (nodeId ++ "-output-handle")] ∧
    (agentNodeHandles nodeId config).countP
      (fun h => h.role == HandleRole.source) = 0 := by
  refine ⟨rfl, ?_⟩
  simp [agentNodeHandles, List.countP_cons]

/-- Claim C6: a Team node renders its input (target) handle exactly when the
config already has a model or a termination condition attached, and always
renders exactly one output (source) handle. -/
theorem C6_team_handles (nodeId : String) (config : TeamConfig) :
    (teamNodeHandles nodeId config).countP
        (fun h => h.role == HandleRole.target) =
      (if config.model_client.isSome || config.termination_condition.isSome
        then 1 else 0) ∧
    (teamNodeHandles nodeId config).countP
        (fun h => h.role == HandleRole.source) = 1 := by
  unfold teamNodeHandles
  constructor <;> split <;> simp [List.countP_cons]

/-- Claim C7: Model, Tool and Termination nodes each render exactly one
source handle on the right and no target handle, for every configuration. -/
theorem C7_leaf_node_handles (nodeId : String) (mc : ModelConfig)
    (tc : ToolConfig) (xc : TerminationConfig) :
    (modelNodeHandles nodeId mc =
       [Handle.mk HandleRole.source HandlePos.right (nodeId ++ "-output-handle")] ∧
     (modelNodeHandles nodeId mc).countP
       (fun h => h.role == HandleRole.target) = 0) ∧
    (toolNodeHandles nodeId tc =
       [Handle.mk HandleRole.source HandlePos.right (nodeId ++ "-output-handle")] ∧
     (toolNodeHandles nodeId tc).countP
       (fun h => h.role == HandleRole.target) = 0) ∧
    (terminationNodeHandles nodeId xc =
       [Handle.mk HandleRole.source HandlePos.right (nodeId ++ "-output-handle")] ∧
     (terminationNodeHandles nodeId xc).countP
       (fun h => h.role == HandleRole.target) = 0) := by
  refine ⟨⟨rfl, ?_⟩, ⟨rfl, ?_⟩, ⟨rfl, ?_⟩⟩ <;>
    simp [modelNodeHandles, toolNodeHandles, terminationNodeHandles,
      List.countP_cons]

/-- Claim C10: when the data of an edge carries no connection type (data
absent or data.type missing), CustomEdge falls back to model-connection and
draws with the model-connection stroke; it does not fail. -/
theorem C10_custom_edge_fallback (data : Option EdgeData)
    (h : data.bind EdgeData.type = none) :
    edgeTypeOf data = "model-connection" ∧
    customEdgeStroke data = some "rgb(59, 130, 246)" := by
  have h1 : edgeTypeOf data = "model-connection" := by
    unfold edgeTypeOf
    rw [h]
  refine ⟨h1, ?_⟩
  unfold customEdgeStroke
  rw [h1]
  rfl

/-- Witness for C10 at data = none. -/
theorem C10_custom_edge_fallback_witness :
    ((none : Option EdgeData).bind EdgeData.type = none) ∧
    (edgeTypeOf none = "model-connection" ∧
     customEdgeStroke none = some "rgb(59, 130, 246)") :=
  ⟨rfl, C10_custom_edge_fallback none rfl⟩

/-- Claim C3: the validator reports not legal whenever the accepts set is
empty and whenever no active dragged item exists, and the result is a
boolean reject in both cases. -/
theorem C3_validator_rejects (isOver : Bool) (accepts : List ComponentType)
    (active : Option ActiveItem) (h : accepts = [] ∨ active = none) :
    isValidDrop isOver accepts active = false := by
  rcases h with h | h
  · subst h
    unfold isValidDrop
    rcases hda : activeDraggedType active with _ | t <;>
      simp [hda, List.contains]
  · subst h
    simp [isValidDrop, activeDraggedType]

/-- Witness for C3 at an empty accepts list with an active model drag. -/
theorem C3_validator_rejects_witness :
    (([] : List ComponentType) = [] ∨
      (some (ActiveItem.mk (some (DragData.mk (some (DragDataCurrent.mk
        (some (DragItem.mk (some ComponentType.model))))))))) = none) ∧
    isValidDrop true []
      (some (ActiveItem.mk (some (DragData.mk (some (DragDataCurrent.mk
        (some (DragItem.mk (some ComponentType.model))))))))) = false :=
  ⟨Or.inl rfl, C3_validator_rejects true [] _ (Or.inl rfl)⟩

/-- Claim C4 counterexample: the claim states the legality outcome is a
function of the accepts set and the dragged kind alone, identical regardless
of any other state such as whether the pointer is over the zone. With the
same accepts set model and the same dragged kind model, the verdict is true
when the pointer is over the zone and false when it is not, so the claim as
stated is false. -/
theorem C4_counterexample :
    isValidDrop true [ComponentType.model]
      (some (ActiveItem.mk (some (DragData.mk (some (DragDataCurrent.mk
        (some (DragItem.mk (some ComponentType.model))))))))) = true ∧
    isValidDrop false [ComponentType.model]
      (some (ActiveItem.mk (some (DragData.mk (some (DragDataCurrent.mk
        (some (DragItem.mk (some ComponentType.model))))))))) = false := by
  exact ⟨by decide, by decide⟩

/-- Claim C4 as amended: the legality verdict is purely a function of the
pointer-over state, the accepts set and the dragged kind: two invocations
with the same accepts set, the same resolved dragged kind and the same
pointer-over state yield identical outcomes, and the validator (a pure
function in this embedding) performs no mutation. -/
theorem C4_verdict_determined (isOver : Bool) (accepts : List ComponentType)
    (a1 a2 : Option ActiveItem)
    (h : activeDraggedType a1 = activeDraggedType a2) :
    isValidDrop isOver accepts a1 = isValidDrop isOver accepts a2 := by
  unfold isValidDrop
  rw [h]

/-- Witness for C4 at two distinct drag states with the same resolved kind. -/
theorem C4_verdict_determined_witness :
    (activeDraggedType none = activeDraggedType (some (ActiveItem.mk none))) ∧
    isValidDrop true [ComponentType.model] none =
      isValidDrop true [ComponentType.model] (some (ActiveItem.mk none)) :=
  ⟨rfl, C4_verdict_determined true [ComponentType.model] none
    (some (ActiveItem.mk none)) rfl⟩

/-- Claim C2: every valid edge has the connection type derived from its
endpoint kind pair by the fixed table (model to team and model to agent give
model-connection, tool to agent gives tool-connection, agent to team gives
participant-connection), the derived type is always a key of the edgeTypes
registry, and no kind pair outside the table can be connected; in
particular no termination to team edge exists. -/
theorem C2_edge_connection_table :
    (∀ e : Edge, e.valid →
      ((e.sourceKind = ComponentType.model ∧ e.targetKind = ComponentType.team ∧
          e.connType = "model-connection") ∨
       (e.sourceKind = ComponentType.model ∧ e.targetKind = ComponentType.agent ∧
          e.connType = "model-connection") ∨
       (e.sourceKind = ComponentType.tool ∧ e.targetKind = ComponentType.agent ∧
          e.connType = "tool-connection") ∨
       (e.sourceKind = ComponentType.agent ∧ e.targetKind = ComponentType.team ∧
          e.connType = "participant-connection")) ∧
      (edgeTypes.lookup e.connType).isSome = true) ∧
    (∀ ct : String,
      ¬ (Edge.mk ComponentType.termination ComponentType.team ct).valid) := by
  constructor
  · rintro ⟨s, t, ct⟩ hv
    unfold Edge.valid at hv
    cases s <;> cases t <;>
        simp only [deriveConnectionType, Option.some.injEq, reduceCtorEq] at hv <;>
      subst hv <;> simp [edgeTypes, List.lookup]
  · intro ct h
    simp [Edge.valid, deriveConnectionType] at h

/-- Witness for C2 at a concrete valid model to team edge. -/
theorem C2_edge_connection_table_witness :
    (Edge.mk ComponentType.model ComponentType.team "model-connection").valid ∧
    (edgeTypes.lookup
      (Edge.mk ComponentType.model ComponentType.team
        "model-connection").connType).isSome = true :=
  ⟨by decide,
   (C2_edge_connection_table.1
     (Edge.mk ComponentType.model ComponentType.team "model-connection")
     (by decide)).2⟩

/-- The runtime string of a ComponentType respects boolean equality. -/
theorem toStr_beq (a b : ComponentType) :
    (ComponentType.toStr a == ComponentType.toStr b) = (a == b) := by
  cases a <;> cases b <;> decide

/-- Array.includes on the mapped strings agrees with membership of the kind. -/
theorem contains_map_toStr (accepts : List ComponentType) (t : ComponentType) :
    (accepts.map ComponentType.toStr).contains (ComponentType.toStr t) =
      accepts.contains t := by
  induction accepts with
  | nil => rfl
  | cons a as ih => simp only [List.map_cons, List.contains_cons, ih, toStr_beq]

/-- Claim C5: the drop legality check is total: for every drag context,
including an absent active item and an active item with any combination of
missing nested fields (data, current, current.current, current.current.type),
JavaScript evaluation of the isValidDrop expression completes without an
exception, and the truthiness of the resulting value is the boolean legality
verdict. In particular the unchained re-read in the third conjunct is safe
because the optional chain in the second conjunct guards it. -/
theorem C5_validator_total (isOver : Bool) (accepts : List ComponentType)
    (active : Option ActiveItem) :
    ∃ v : JSVal,
      evalIsValidDrop (JSVal.jsBool isOver) (accepts.map ComponentType.toStr)
        (activeToJS active) = Except.ok v ∧
      truthy v = isValidDrop isOver accepts active := by
  cases isOver with
  | false => exact ⟨JSVal.jsBool false, rfl, rfl⟩
  | true =>
    rcases active with _ | ⟨_ | ⟨_ | ⟨_ | ⟨_ | t⟩⟩⟩⟩
    · exact ⟨JSVal.undef, rfl, rfl⟩
    · exact ⟨JSVal.undef, rfl, rfl⟩
    · exact ⟨JSVal.undef, rfl, rfl⟩
    · exact ⟨JSVal.undef, rfl, rfl⟩
    · exact ⟨JSVal.undef, rfl, rfl⟩
    · cases t
      · exact ⟨JSVal.jsBool (accepts.contains ComponentType.team),
          by rw [← contains_map_toStr]; rfl, rfl⟩
      · exact ⟨JSVal.jsBool (accepts.contains ComponentType.agent),
          by rw [← contains_map_toStr]; rfl, rfl⟩
      · exact ⟨JSVal.jsBool (accepts.contains ComponentType.model),
          by rw [← contains_map_toStr]; rfl, rfl⟩
      · exact ⟨JSVal.jsBool (accepts.contains ComponentType.tool),
          by rw [← contains_map_toStr]; rfl, rfl⟩
      · exact ⟨JSVal.jsBool (accepts.contains ComponentType.termination),
          by rw [← contains_map_toStr]; rfl, rfl⟩

/-- Claim C8: attaching a model to a team whose model slot is already
occupied fails with SlotOccupied. The attach operation is pure, so on this
error no new graph is produced and the caller keeps the original graph with
its existing edge set and team model reference intact; there is no implicit
replace. -/
theorem C8_second_model_slot_occupied (g : Graph) (teamId modelId eid : String)
    (tn mn : GNode) (tc : TeamConfig) (mc0 : ModelConfig)
    (hM : findNode g modelId = some mn) (hT : findNode g teamId = some tn)
    (hKm : mn.kind = ComponentType.model) (hKt : tn.kind = ComponentType.team)
    (hCfg : tn.config = ComponentConfig.team tc)
    (hOcc : tc.model_client = some mc0) :
    attach g modelId teamId eid = Except.error AttachError.SlotOccupied := by
  unfold attach proposeConnection
  rw [hM, hT]
  simp [hKm, hKt, deriveConnectionType, modelSlotOccupied, hCfg, hOcc]

/-- Witness for C8 at a concrete two node graph. -/
theorem C8_second_model_slot_occupied_witness :
    (findNode exGraph "m2" = some exModelNode ∧
     findNode exGraph "t1" = some exTeamNode ∧
     exModelNode.kind = ComponentType.model ∧
     exTeamNode.kind = ComponentType.team ∧
     exTeamNode.config = ComponentConfig.team exTeamConfig ∧
     exTeamConfig.model_client = some (ModelConfig.mk "openai" "gpt-4" none)) ∧
    attach exGraph "m2" "t1" "e1" = Except.error AttachError.SlotOccupied :=
  ⟨⟨by decide, by decide, rfl, rfl, rfl, rfl⟩,
   C8_second_model_slot_occupied exGraph "t1" "m2" "e1" exTeamNode exModelNode
     exTeamConfig (ModelConfig.mk "openai" "gpt-4" none)
     (by decide) (by decide) rfl rfl rfl rfl⟩

/-- Claim C9 counterexample: the claim states that every consumer
interpreting a node config dispatches on the variant tag rather than using
an unchecked downcast. TeamNode interprets its config through the
TypeScript cast config as TeamConfig, a runtime no-op: interpreting a
config whose tag is agent (not team) still succeeds and even surfaces the
agent model_client as the team model view, instead of being rejected by a
tag match. -/
theorem C9_counterexample :
    (asTeamConfig (ComponentConfig.agent (AgentConfig.mk "assistant" "a1"
        (some (ModelConfig.mk "openai" "gpt-4" none)) none none))).model_client =
      some (ModelConfig.mk "openai" "gpt-4" none) ∧
    configKind (ComponentConfig.agent (AgentConfig.mk "assistant" "a1"
        (some (ModelConfig.mk "openai" "gpt-4" none)) none none)) ≠
      ComponentType.team :=
  ⟨rfl, by decide⟩

/-- The attach config update never changes a node kind or the variant tag
of its config: every branch rewrites a variant in place. -/
theorem applyAttachment_preserves (p c : GNode) :
    (applyAttachment p c).kind = p.kind ∧
    configKind (applyAttachment p c).config = configKind p.config := by
  rcases p with ⟨pid, pkind, pcfg⟩
  rcases c with ⟨cid, ckind, ccfg⟩
  cases pcfg <;> cases ccfg <;> simp [applyAttachment, configKind]

/-- Claim C9 as amended: the variant tag of node.config equals node.kind at
every observable point of the modelled lifecycle: every node produced by the
(spec-modelled) create operation satisfies it, and the (spec-modelled)
attach operation preserves it across the whole graph; the top-level
consumer dispatches on the kind tag via the nodeTypes registry, mapping
each kind to its component; however, the per-kind node components
(TeamNode, AgentNode, ModelNode, ToolNode, TerminationNode) each interpret
node.config via an unchecked downcast (the TypeScript as-cast plus field
reads, with no tag check) rather than by matching on the tag, so a
mismatched config is silently interpreted rather than rejected, as the
characterization of each cast on a mismatched variant shows. -/
theorem C9_tag_dispatch_amended :
    (∀ (nid : String) (kind : ComponentType) (config : ComponentConfig)
        (n : GNode),
      createNode nid kind config = Except.ok n → configKind n.config = n.kind) ∧
    (∀ (g g2 : Graph) (sourceId targetId eid : String),
      graphTagsMatch g = true →
      attach g sourceId targetId eid = Except.ok g2 →
      graphTagsMatch g2 = true) ∧
    (∀ k : ComponentType, nodeTypes.lookup k = some (componentOfKind k)) ∧
    ((∀ a : AgentConfig, asTeamConfig (ComponentConfig.agent a) =
        TeamConfigView.mk none a.model_client none none none) ∧
     (∀ c : TeamConfig, asAgentConfig (ComponentConfig.team c) =
        AgentConfigView.mk none c.model_client none none) ∧
     (∀ a : AgentConfig, asModelConfig (ComponentConfig.agent a) =
        ModelConfigView.mk none none none) ∧
     (∀ a : AgentConfig, asToolConfig (ComponentConfig.agent a) =
        ToolConfigView.mk none none none) ∧
     (∀ a : AgentConfig, asTerminationConfig (ComponentConfig.agent a) =
        TerminationConfigView.mk none none)) := by
  refine ⟨?_, ?_, ?_, fun a => rfl, fun c => rfl, fun a => rfl,
    fun a => rfl, fun a => rfl⟩
  · intro nid kind config n h
    by_cases hk : configKind config = kind
    · unfold createNode at h
      rw [if_pos hk] at h
      injection h with h2
      subst h2
      exact hk
    · unfold createNode at h
      rw [if_neg hk] at h
      exact Except.noConfusion h
  · intro g g2 sourceId targetId eid hInv hAt
    unfold attach at hAt
    cases hpc : proposeConnection g sourceId targetId eid with
    | error err =>
      rw [hpc] at hAt
      exact Except.noConfusion hAt
    | ok ed =>
      rw [hpc] at hAt
      cases hfn : findNode g sourceId with
      | none =>
        rw [hfn] at hAt
        exact Except.noConfusion hAt
      | some sn =>
        rw [hfn] at hAt
        injection hAt with hAt2
        subst hAt2
        unfold graphTagsMatch at hInv ⊢
        rw [List.all_eq_true] at hInv ⊢
        intro x hx
        obtain ⟨n, hn, rfl⟩ := List.mem_map.1 hx
        cases hid : (n.id == targetId) with
        | false =>
          simp only [hid, Bool.false_eq_true, if_false]
          exact hInv n hn
        | true =>
          simp only [hid, if_true]
          have h1 := applyAttachment_preserves n sn
          rw [h1.1, h1.2]
          exact hInv n hn
  · intro k
    cases k <;> rfl

/-- Witness for C9: a concrete successful attach on a graph satisfying the
tag invariant, whose result still satisfies it. -/
theorem C9_tag_dispatch_amended_witness :
    (graphTagsMatch exGraph2 = true ∧
     attach exGraph2 "m2" "t1" "e1" = Except.ok exGraph2Attached) ∧
    graphTagsMatch exGraph2Attached = true :=
  ⟨⟨by decide, rfl⟩,
   C9_tag_dispatch_amended.2.1 exGraph2 exGraph2Attached "m2" "t1" "e1"
     (by decide) rfl⟩

end AutogenStudio
